import Mathlib

/-!
Verification development for gdoh, a DNS-over-HTTPS forwarding proxy
written in Go.

The Go sources are embedded shallowly as pure Lean functions:

- HTTP upstreams (the net/http collaborator) are modelled as oracle
  functions from the chosen endpoint URL and the request data to either
  a transport error or an HTTP response.
- Randomness is passed explicitly: each call of Go rand.Int becomes a
  natural-number argument, understood to be drawn uniformly from
  [0, 2^63), the range of rand.Int on a 64-bit platform.
- Fallible operations return Except; operations that would panic in Go
  (indexing with a zero-length endpoint list) return Option, with none
  for the panic.
- Byte strings are lists of naturals; observable side effects that the
  specification talks about (how many endpoint selections, network
  requests or bootstrap lookups a call performs, whether a failure is
  logged) are returned as explicit fields of outcome structures.
-/

set_option maxRecDepth 8000

namespace Gdoh

/-- Model of a Go error value as this program distinguishes them: the
sentinel ErrResolver, or any other error (connect, TLS, read failures)
propagated unchanged from the net/http stack, carrying an opaque
message. -/
inductive GoErr where
  | errResolver : GoErr
  | transport : String → GoErr
deriving DecidableEq

instance instDecEqExcept {ε α : Type} [DecidableEq ε] [DecidableEq α] :
    DecidableEq (Except ε α) := fun a b =>
  match a, b with
  | .error e, .error f =>
    if h : e = f then isTrue (by rw [h])
    else isFalse (fun hc => h (by cases hc; rfl))
  | .error _, .ok _ => isFalse (fun hc => Except.noConfusion hc)
  | .ok _, .error _ => isFalse (fun hc => Except.noConfusion hc)
  | .ok x, .ok y =>
    if h : x = y then isTrue (by rw [h])
    else isFalse (fun hc => h (by cases hc; rfl))

/-- Size of the range of Go rand.Int on a 64-bit platform: the values
are the non-negative 63-bit integers [0, 2^63). -/
def randIntRange : Nat := 2 ^ 63

/-- The static type mapping of the source, map typeNameToNumber: DNS
record-type mnemonic to IANA-assigned number. A missing key is modelled
as none (Go: the comma-ok form returns ok = false). -/
def typeNameToNumber : String → Option Int
  | "A" => some 1
  | "NS" => some 2
  | "CNAME" => some 5
  | "SOA" => some 6
  | "PTR" => some 12
  | "MX" => some 15
  | "TXT" => some 16
  | "AAAA" => some 28
  | "SRV" => some 33
  | _ => none

/-- Embedding of pickEndpoint: c.Endpoints[rand.Int() % len(c.Endpoints)],
with the random draw r passed explicitly. On an empty endpoint list the
Go expression panics (integer modulo by zero); the model returns none,
since r % 0 = r is out of bounds for the empty list. -/
def pickEndpoint (endpoints : List String) (r : Nat) : Option String :=
  endpoints[r % endpoints.length]?

/-- HTTP response to a wire-format POST, as RawQuery observes it: the
status code and the body bytes that ReadAll would yield. -/
structure WireResp where
  statusCode : Nat
  body : List Nat
deriving DecidableEq

/-- Oracle for the wire-format upstream: chosen endpoint URL and POSTed
query bytes to either a propagated transport error or a response. -/
abbrev WireUpstream := String → List Nat → Except GoErr WireResp

/-- Embedding of RawQuery: POST the query bytes to the randomly chosen
endpoint; propagate transport errors unchanged; a non-200 status is
logged and fails with ErrResolver before any body is returned; on 200
the body is returned verbatim. none models the Go panic on an empty
endpoint list. -/
def RawQuery (upstream : WireUpstream) (endpoints : List String) (r : Nat)
    (query : List Nat) : Option (Except GoErr (List Nat)) :=
  (pickEndpoint endpoints r).map (fun ep =>
    match upstream ep query with
    | .error e => .error e
    | .ok resp =>
      if resp.statusCode ≠ 200 then .error .errResolver
      else .ok resp.body)

/-- One entry of the Answer array of a DNS-JSON response, Go struct
fields Type (int) and Data (string). -/
structure Answer where
  type : Int
  data : String
deriving DecidableEq

/-- The decoded DNS-JSON body, Go struct field Answer. -/
structure JSONBody where
  answer : List Answer
deriving DecidableEq

/-- HTTP response to a DNS-JSON GET: the status code, plus the result of
json.Unmarshal on the body. parsedBody = none models a body that is
malformed JSON or does not match the expected schema: Unmarshal then
leaves the zero value (a nil Answer slice) and Query ignores its
error. -/
structure JSONResp where
  statusCode : Nat
  parsedBody : Option JSONBody
deriving DecidableEq

/-- Oracle for the DNS-JSON upstream: chosen endpoint URL, query name
and query type to either a transport error or a response. -/
abbrev JSONUpstream := String → String → String → Except GoErr JSONResp

/-- Embedding of the answer-collection loop at the end of Query: walk
the Answer array in order and keep the Data of entries whose Type equals
the mapped number of the requested mnemonic. -/
def collectAnswers (n : Int) : List Answer → List String
  | [] => []
  | a :: rest =>
    if a.type = n then a.data :: collectAnswers n rest
    else collectAnswers n rest

/-- Observable outcome of one call to Query: how many endpoint
selections happened, how many network requests were issued, and the
returned value. -/
structure QueryOutcome where
  picks : Nat
  calls : Nat
  result : Except GoErr (List String)
deriving DecidableEq

/-- Embedding of Query: an unknown mnemonic fails with ErrResolver
before any endpoint selection or network call; otherwise GET the chosen
endpoint (URL construction and request building are stdlib collaborators
folded into the upstream oracle); propagate transport errors; non-200
fails with ErrResolver; on 200 decode the body (decode failure yields
the zero value, its error ignored) and collect matching answers. -/
def Query (upstream : JSONUpstream) (endpoints : List String) (r : Nat)
    (name type_ : String) : Option QueryOutcome :=
  match typeNameToNumber type_ with
  | none => some ⟨0, 0, .error .errResolver⟩
  | some n =>
    match pickEndpoint endpoints r with
    | none => none
    | some ep =>
      match upstream ep name type_ with
      | .error e => some ⟨1, 1, .error e⟩
      | .ok resp =>
        if resp.statusCode ≠ 200 then some ⟨1, 1, .error .errResolver⟩
        else some ⟨1, 1, .ok (collectAnswers n (resp.parsedBody.getD ⟨[]⟩).answer)⟩

/-- Endpoint table of rootDohClient: IP-literal CloudFlare endpoints
only, initialized once and never written again anywhere in the
source. -/
def rootDohClientEndpoints : List String :=
  ["https://1.0.0.1/dns-query", "https://1.1.1.1/dns-query"]

/-- Endpoint table of the public dohClient, initialized once and never
written again anywhere in the source. -/
def dohClientEndpoints : List String :=
  ["https://1.0.0.1/dns-query",
   "https://1.1.1.1/dns-query",
   "https://dns.google.com/experimental",
   "https://doh.cleanbrowsing.org/doh/security-filter/"]

/-- Observable outcome of one call to dialContext: how many bootstrap
lookups were issued through the root client, and either an error or the
host/port pair handed to the underlying net.Dialer. -/
structure DialOutcome where
  rootLookups : Nat
  result : Except GoErr (String × String)
deriving DecidableEq

/-- Embedding of dialContext. The address arrives pre-split into host
and port (net.SplitHostPort is a stdlib collaborator); isIP models the
test net.ParseIP(host) != nil; r is the random draw consumed by the
bootstrap Query, rAns the independent draw picking one answer. An IP
literal host goes straight to the dialer with zero lookups; a hostname
triggers exactly one Query for record type A against the root client
before the dialer runs: its error propagates, zero answers fail with
ErrResolver, and otherwise answer number rAns % len(answers) replaces
the host while the original port is kept. -/
def dialContext (isIP : String → Bool) (upstream : JSONUpstream)
    (r rAns : Nat) (host port : String) : Option DialOutcome :=
  if isIP host then
    some ⟨0, .ok (host, port)⟩
  else
    match Query upstream rootDohClientEndpoints r host "A" with
    | none => none
    | some qo =>
      match qo.result with
      | .error e => some ⟨1, .error e⟩
      | .ok answers =>
        if h : answers.length = 0 then some ⟨1, .error .errResolver⟩
        else
          some ⟨1, .ok (answers.get
            ⟨rAns % answers.length, Nat.mod_lt rAns (Nat.pos_of_ne_zero h)⟩,
            port)⟩

/-- Read buffer size of the dispatcher loop in main:
query := make([]byte, 128). -/
def readBufSize : Nat := 128

/-- Bytes the dispatcher hands to the Wire Client for one inbound
datagram: ReadMsgUDP reads at most readBufSize bytes of the payload
(a longer datagram is truncated, the excess discarded), and
query = query[:n] keeps the n bytes read. -/
def forwardedQuery (payload : List Nat) : List Nat :=
  payload.take readBufSize

/-- Embedding of one per-datagram goroutine of main: forward the
received bytes to RawQuery on the public client; on any error, log and
substitute the single placeholder byte 0; write the reply to the exact
source address the datagram arrived from. Result fields: reply bytes,
destination address, whether a query error was logged. -/
def handleDatagram (upstream : WireUpstream) (r : Nat) (payload : List Nat)
    (addr : String) : Option (List Nat × String × Bool) :=
  (RawQuery upstream dohClientEndpoints r (forwardedQuery payload)).map
    (fun res =>
      match res with
      | .error _ => ([0], addr, true)
      | .ok body => (body, addr, false))

/-- Startup check in main: len(dohClient.Endpoints) == 0 is fatal before
serving begins. -/
def startupFatal : Bool := dohClientEndpoints.length == 0

/-- Number of values of the rand.Int draw (uniform on
[0, randIntRange)) for which pickEndpoint selects the endpoint e. With
a uniform source, this count divided by randIntRange is the probability
of selecting e on one call. -/
def selectionCount (endpoints : List String) (e : String) : Nat :=
  ((Finset.range randIntRange).filter
    (fun r => pickEndpoint endpoints r = some e)).card

/-- Strip a leading https scheme from a URL given as a character list,
as the transport does before dialing the authority. -/
def stripScheme : List Char → List Char
  | 'h' :: 't' :: 't' :: 'p' :: 's' :: ':' :: '/' :: '/' :: rest => rest
  | cs => cs

/-- Host part of an https endpoint URL, as the transport extracts it to
dial: drop the scheme, then take until the first slash (start of the
path) or colon (start of an explicit port). -/
def urlHost (u : String) : String :=
  ((stripScheme u.toList).takeWhile (fun c => c != '/' && c != ':')).asString

/-- Numeric value of one decimal field of a dotted quad. -/
def fieldValue (cs : List Char) : Nat :=
  cs.foldl (fun acc c => acc * 10 + (c.toNat - 48)) 0

/-- Validity of one dotted-quad field as net.ParseIP accepts it: one to
three decimal digits, no leading zero, value at most 255. -/
def isIPv4Field (cs : List Char) : Bool :=
  !cs.isEmpty && cs.length ≤ 3 && cs.all (fun c => c.isDigit) &&
    (cs.length == 1 || cs.head? != some '0') && fieldValue cs ≤ 255

/-- Split a character list into fields at every dot. -/
def splitFields : List Char → List (List Char)
  | [] => [[]]
  | c :: rest =>
    let r := splitFields rest
    if c = '.' then [] :: r
    else
      match r with
      | [] => [[c]]
      | f :: fs => (c :: f) :: fs

/-- Model of the collaborator net.ParseIP succeeding, restricted to
IPv4 dotted-quad literals: four valid decimal fields separated by dots.
The stdlib also accepts IPv6 textual forms; no string this development
applies the test to is one. -/
def isIPLiteral (s : String) : Bool :=
  match splitFields s.toList with
  | [a, b, c, d] => isIPv4Field a && isIPv4Field b && isIPv4Field c && isIPv4Field d
  | _ => false

/-- A stub DNS-JSON upstream answering every query with status 200 and
three A records, used to exercise the answer-picking index
concretely. -/
def stubThreeAnswers : JSONUpstream := fun _ _ _ =>
  .ok ⟨200, some ⟨[⟨1, "10.0.0.1"⟩, ⟨1, "10.0.0.2"⟩, ⟨1, "10.0.0.3"⟩]⟩⟩

/-- Number of values of the answer-picking rand.Int draw for which the
bootstrap dial of dns.example:443 against stubThreeAnswers hands the
given answer host to the dialer. With a uniform source, this count
divided by randIntRange is the probability that this answer is
picked. -/
def dialAnswerCount (a : String) : Nat :=
  ((Finset.range randIntRange).filter
    (fun rAns => dialContext (fun _ => false) stubThreeAnswers 0 rAns
      "dns.example" "443" = some ⟨1, .ok (a, "443")⟩)).card

/-- A three-endpoint client configuration, used to exercise endpoint
selection concretely on a set size that does not divide the range of
rand.Int. -/
def threeEndpoints : List String :=
  ["https://e1/dns-query", "https://e2/dns-query", "https://e3/dns-query"]

/-- A wire upstream that echoes the POSTed query bytes back with status
200, used to observe exactly which bytes reach the upstream. -/
def echoWireUpstream : WireUpstream := fun _ q => .ok ⟨200, q⟩

/-- A stub DNS-JSON upstream returning a CNAME entry followed by an A
entry, the worked example of the specification. -/
def stubCnameA : JSONUpstream := fun _ _ _ =>
  .ok ⟨200, some ⟨[⟨5, "cname.example."⟩, ⟨1, "93.184.216.34"⟩]⟩⟩

/-- A stub wire upstream answering status 500 with a garbage body. -/
def stub500Wire : WireUpstream := fun _ _ => .ok ⟨500, [1, 2, 3]⟩

/-- A stub DNS-JSON upstream answering status 500 with a well-formed
body, to check the body is discarded on a non-200 status. -/
def stub500JSON : JSONUpstream := fun _ _ _ =>
  .ok ⟨500, some ⟨[⟨1, "93.184.216.34"⟩]⟩⟩

/-- A stub DNS-JSON upstream answering status 200 with a body that does
not decode (malformed JSON or wrong schema). -/
def stubMalformed : JSONUpstream := fun _ _ _ => .ok ⟨200, none⟩

/-! ## Helper lemmas -/

/-- The answer-collection loop keeps exactly the data of the entries of
matching type, in order. -/
theorem collectAnswers_eq_filter_map (n : Int) (l : List Answer) :
    collectAnswers n l
      = (l.filter (fun a => decide (a.type = n))).map (fun a => a.data) := by
  induction l with
  | nil => rfl
  | cons a rest ih =>
    by_cases h : a.type = n <;> simp [collectAnswers, h, ih]

/-- On a non-empty endpoint list, pickEndpoint returns some element of
the list. -/
theorem pickEndpoint_mem (endpoints : List String) (r : Nat)
    (h : endpoints ≠ []) :
    ∃ e, pickEndpoint endpoints r = some e ∧ e ∈ endpoints := by
  have hk : 0 < endpoints.length := List.length_pos.mpr h
  have hlt : r % endpoints.length < endpoints.length := Nat.mod_lt r hk
  refine ⟨endpoints.get ⟨r % endpoints.length, hlt⟩, ?_, List.get_mem _ _ hlt⟩
  simp [pickEndpoint, List.getElem?_eq_getElem hlt]

/-- Counting lemma: among the naturals below N, exactly
N / k + (1 if i < N % k) have residue i modulo k. -/
theorem card_range_filter_mod (k i : Nat) (hk : 0 < k) (hik : i < k) (N : Nat) :
    ((Finset.range N).filter (fun r => r % k = i)).card
      = N / k + if i < N % k then 1 else 0 := by
  induction N with
  | zero => simp
  | succ N ih =>
    rw [Finset.range_succ, Finset.filter_insert]
    have hs : N % k < k := Nat.mod_lt N hk
    by_cases hcase : N % k + 1 = k
    · have hN1 : N + 1 = k * (N / k + 1) := by
        have hdm := Nat.div_add_mod N k
        have hmul : k * (N / k + 1) = k * (N / k) + k := by ring
        omega
      have hdiv : (N + 1) / k = N / k + 1 := by
        rw [hN1, Nat.mul_div_cancel_left _ hk]
      have hmod : (N + 1) % k = 0 := by rw [hN1, Nat.mul_mod_right]
      rw [hdiv, hmod]
      by_cases hi : N % k = i
      · rw [if_pos hi, Finset.card_insert_of_not_mem (by simp), ih]
        split_ifs <;> omega
      · rw [if_neg hi, ih]
        split_ifs <;> omega
    · have hlt : N % k + 1 < k := by omega
      have hN1 : N + 1 = (N % k + 1) + k * (N / k) := by
        have := Nat.div_add_mod N k
        omega
      have hmod : (N + 1) % k = N % k + 1 := by
        rw [hN1, Nat.add_mul_mod_self_left, Nat.mod_eq_of_lt hlt]
      have hdiv : (N + 1) / k = N / k := by
        rw [hN1, Nat.add_mul_div_left _ _ hk, Nat.div_eq_of_lt hlt]
        omega
      rw [hdiv, hmod]
      by_cases hi : N % k = i
      · rw [if_pos hi, Finset.card_insert_of_not_mem (by simp), ih]
        split_ifs <;> omega
      · rw [if_neg hi, ih]
        split_ifs <;> omega

/-! ## Claim theorems -/

/-- C2: every endpoint of the root client is an https URL whose host is
an IP literal, and the bootstrap hook applied to such a host performs
zero further lookups, so a lookup through the root client never
re-enters the hook. The endpoint tables are constants of the source,
written nowhere after initialization, so this holds in every reachable
state. -/
theorem c2_rootEndpoints_ip_literals (e : String)
    (he : e ∈ rootDohClientEndpoints) (upstream : JSONUpstream)
    (r rAns : Nat) (port : String) :
    isIPLiteral (urlHost e) = true ∧
    dialContext isIPLiteral upstream r rAns (urlHost e) port
      = some ⟨0, .ok (urlHost e, port)⟩ := by
  have hip : isIPLiteral (urlHost e) = true := by
    fin_cases he <;> decide
  exact ⟨hip, by simp [dialContext, hip]⟩

/-- C2 witness: the first root endpoint, with an arbitrary stub
upstream. -/
theorem c2_witness :
    isIPLiteral (urlHost "https://1.0.0.1/dns-query") = true ∧
    dialContext isIPLiteral stubThreeAnswers 0 0
      (urlHost "https://1.0.0.1/dns-query") "443"
      = some ⟨0, .ok (urlHost "https://1.0.0.1/dns-query", "443")⟩ :=
  c2_rootEndpoints_ip_literals "https://1.0.0.1/dns-query" (by decide)
    stubThreeAnswers 0 0 "443"

/-- C3: for every successful Query call whose upstream response decodes
as the expected schema, the result is exactly the data strings of the
answer entries whose numeric type equals the mapped number of the
requested mnemonic, in the original response order, all other entries
discarded. -/
theorem c3_query_filters_matching_answers (upstream : JSONUpstream)
    (endpoints : List String) (r : Nat) (name type_ : String) (n : Int)
    (ep : String) (body : JSONBody)
    (hty : typeNameToNumber type_ = some n)
    (hep : pickEndpoint endpoints r = some ep)
    (hup : upstream ep name type_ = .ok ⟨200, some body⟩) :
    Query upstream endpoints r name type_
      = some ⟨1, 1, .ok ((body.answer.filter
          (fun a => decide (a.type = n))).map (fun a => a.data))⟩ := by
  simp [Query, hty, hep, hup, collectAnswers_eq_filter_map]

/-- C3 witness: the worked example of the specification; the stub
returns a CNAME entry then an A entry and the A lookup returns exactly
the A data. -/
theorem c3_witness :
    Query stubCnameA dohClientEndpoints 0 "example.com" "A"
      = some ⟨1, 1, .ok ["93.184.216.34"]⟩ := by
  have h := c3_query_filters_matching_answers stubCnameA dohClientEndpoints 0
    "example.com" "A" 1 "https://1.0.0.1/dns-query"
    ⟨[⟨5, "cname.example."⟩, ⟨1, "93.184.216.34"⟩]⟩ rfl rfl rfl
  exact h.trans (by decide)

/-- C4: an unrecognized mnemonic fails immediately with a resolver error
and performs zero endpoint selections and zero network calls. -/
theorem c4_unknown_mnemonic_no_network (upstream : JSONUpstream)
    (endpoints : List String) (r : Nat) (name type_ : String)
    (hty : typeNameToNumber type_ = none) :
    Query upstream endpoints r name type_
      = some ⟨0, 0, .error .errResolver⟩ := by
  simp [Query, hty]

/-- C4 witness: the mnemonic ZZZ is not in the type mapping, so the
query fails with zero network activity whatever the upstream. -/
theorem c4_witness :
    Query stubCnameA dohClientEndpoints 0 "example.com" "ZZZ"
      = some ⟨0, 0, .error .errResolver⟩ :=
  c4_unknown_mnemonic_no_network stubCnameA dohClientEndpoints 0
    "example.com" "ZZZ" rfl

/-- C5: a non-200 upstream status makes both RawQuery and Query fail
with ErrResolver, returning neither body bytes nor an answer list. -/
theorem c5_non200_is_resolver_error (wu : WireUpstream) (ju : JSONUpstream)
    (endpoints1 endpoints2 : List String) (r1 r2 : Nat) (q : List Nat)
    (name type_ : String) (n : Int) (ep1 ep2 : String)
    (s1 s2 : Nat) (b : List Nat) (pb : Option JSONBody)
    (hep1 : pickEndpoint endpoints1 r1 = some ep1)
    (hw : wu ep1 q = .ok ⟨s1, b⟩) (hs1 : s1 ≠ 200)
    (hty : typeNameToNumber type_ = some n)
    (hep2 : pickEndpoint endpoints2 r2 = some ep2)
    (hj : ju ep2 name type_ = .ok ⟨s2, pb⟩) (hs2 : s2 ≠ 200) :
    RawQuery wu endpoints1 r1 q = some (.error .errResolver) ∧
    Query ju endpoints2 r2 name type_ = some ⟨1, 1, .error .errResolver⟩ := by
  constructor
  · simp [RawQuery, hep1, hw, hs1]
  · simp [Query, hty, hep2, hj, hs2]

/-- C5 witness: stub upstreams answering status 500 with non-empty
bodies; both clients fail with ErrResolver and return no content. -/
theorem c5_witness :
    RawQuery stub500Wire dohClientEndpoints 0 [0, 1]
      = some (.error .errResolver) ∧
    Query stub500JSON dohClientEndpoints 0 "example.com" "A"
      = some ⟨1, 1, .error .errResolver⟩ :=
  c5_non200_is_resolver_error stub500Wire stub500JSON dohClientEndpoints
    dohClientEndpoints 0 0 [0, 1] "example.com" "A" 1
    "https://1.0.0.1/dns-query" "https://1.0.0.1/dns-query" 500 500
    [1, 2, 3] (some ⟨[⟨1, "93.184.216.34"⟩]⟩) rfl rfl (by decide) rfl rfl
    rfl (by decide)

/-- C7 counterexample: a datagram of 129 bytes is not forwarded whole:
the dispatcher reads at most its 128-byte buffer, so the forwarded query
differs from the full payload, refuting the claim for any datagram
longer than 128 bytes (practical upper bound 65535). -/
theorem c7_counterexample :
    forwardedQuery (List.replicate 129 0) ≠ List.replicate 129 0 := by
  decide

/-- C7 amended: a payload of at most readBufSize = 128 bytes is
forwarded to the Wire Client unmodified, as observed by an echoing
upstream; a longer payload is truncated to its first 128 bytes. -/
theorem c7_forward_truncated_at_buffer (p1 p2 : List Nat) (r : Nat)
    (addr : String) (h1 : p1.length ≤ readBufSize)
    (h2 : readBufSize < p2.length) :
    forwardedQuery p1 = p1 ∧
    forwardedQuery p2 = p2.take readBufSize ∧
    (forwardedQuery p2).length = readBufSize ∧
    handleDatagram echoWireUpstream r p1 addr = some (p1, addr, false) ∧
    handleDatagram echoWireUpstream r p2 addr
      = some (p2.take readBufSize, addr, false) := by
  have ht1 : forwardedQuery p1 = p1 := List.take_of_length_le h1
  obtain ⟨ep, hep, -⟩ := pickEndpoint_mem dohClientEndpoints r (by decide)
  refine ⟨ht1, rfl, ?_, ?_, ?_⟩
  · show (p2.take readBufSize).length = readBufSize
    rw [List.length_take]
    omega
  · simp [handleDatagram, RawQuery, hep, echoWireUpstream, ht1]
  · simp [handleDatagram, RawQuery, hep, echoWireUpstream, forwardedQuery]

/-- C7 witness for the amended claim: a 3-byte payload passes through
unmodified; a 129-byte payload is cut to 128 bytes. -/
theorem c7_witness :
    forwardedQuery [1, 2, 3] = [1, 2, 3] ∧
    forwardedQuery (List.replicate 129 7)
      = (List.replicate 129 7).take readBufSize ∧
    (forwardedQuery (List.replicate 129 7)).length = readBufSize ∧
    handleDatagram echoWireUpstream 0 [1, 2, 3] "203.0.113.5:4242"
      = some ([1, 2, 3], "203.0.113.5:4242", false) ∧
    handleDatagram echoWireUpstream 0 (List.replicate 129 7) "203.0.113.5:4242"
      = some ((List.replicate 129 7).take readBufSize,
          "203.0.113.5:4242", false) :=
  c7_forward_truncated_at_buffer [1, 2, 3] (List.replicate 129 7) 0
    "203.0.113.5:4242" (by decide) (by decide)

/-- C8: a status-200 response whose body fails to decode as the expected
schema is absorbed silently: Query returns an empty answer list and no
error. -/
theorem c8_malformed_body_empty_ok (upstream : JSONUpstream)
    (endpoints : List String) (r : Nat) (name type_ : String) (n : Int)
    (ep : String)
    (hty : typeNameToNumber type_ = some n)
    (hep : pickEndpoint endpoints r = some ep)
    (hup : upstream ep name type_ = .ok ⟨200, none⟩) :
    Query upstream endpoints r name type_ = some ⟨1, 1, .ok []⟩ := by
  simp [Query, hty, hep, hup, collectAnswers]

/-- C8 witness: a stub returning status 200 with an undecodable body
yields the empty list and no error. -/
theorem c8_witness :
    Query stubMalformed dohClientEndpoints 0 "example.com" "A"
      = some ⟨1, 1, .ok []⟩ :=
  c8_malformed_body_empty_ok stubMalformed dohClientEndpoints 0
    "example.com" "A" 1 "https://1.0.0.1/dns-query" rfl rfl rfl

/-- C9: when the Wire Client call for a datagram fails with any error,
the dispatcher logs it and writes exactly the single placeholder byte 0
back to the source address the datagram arrived from. -/
theorem c9_failure_placeholder_reply (upstream : WireUpstream) (r : Nat)
    (payload : List Nat) (addr : String) (e : GoErr)
    (hfail : RawQuery upstream dohClientEndpoints r (forwardedQuery payload)
      = some (.error e)) :
    handleDatagram upstream r payload addr = some ([0], addr, true) := by
  simp [handleDatagram, hfail]

/-- C9 witness: a stub upstream answering 500 makes the dispatcher reply
with the placeholder byte to the source address. -/
theorem c9_witness :
    handleDatagram stub500Wire 0 [7, 8] "198.51.100.7:9999"
      = some ([0], "198.51.100.7:9999", true) :=
  c9_failure_placeholder_reply stub500Wire 0 [7, 8] "198.51.100.7:9999"
    .errResolver (by decide)

/-- C1 amended: for every dial whose host is not an IP literal, the hook
issues exactly one JSON Client query for record type A through the root
client before the underlying connection attempt; a query error
propagates unchanged; zero answers fail with ErrResolver; otherwise the
answer at index rand % count — a choice that is exactly uniform
precisely when the answer count divides the 2^63 range of the random
source, and within 2^-63 of uniform otherwise — replaces the connection
host while the original port is kept. A dial whose host is an IP literal
issues zero bootstrap lookups. -/
theorem c1_dial_bootstrap (isIP : String → Bool) (upstream : JSONUpstream)
    (r rAns : Nat) (host port : String) :
    (isIP host = true →
      dialContext isIP upstream r rAns host port
        = some ⟨0, .ok (host, port)⟩) ∧
    (isIP host = false →
      ∀ qo, Query upstream rootDohClientEndpoints r host "A" = some qo →
        (∀ e, qo.result = .error e →
          dialContext isIP upstream r rAns host port
            = some ⟨1, .error e⟩) ∧
        (qo.result = .ok [] →
          dialContext isIP upstream r rAns host port
            = some ⟨1, .error .errResolver⟩) ∧
        (∀ answers, qo.result = .ok answers → answers ≠ [] →
          ∃ a, answers[rAns % answers.length]? = some a ∧
            dialContext isIP upstream r rAns host port
              = some ⟨1, .ok (a, port)⟩)) := by
  constructor
  · intro hip
    simp [dialContext, hip]
  · intro hip qo hq
    refine ⟨?_, ?_, ?_⟩
    · intro e he
      simp [dialContext, hip, hq, he]
    · intro he
      simp [dialContext, hip, hq, he]
    · intro answers hres hne
      have hlen : 0 < answers.length := List.length_pos.mpr hne
      have hlt : rAns % answers.length < answers.length := Nat.mod_lt rAns hlen
      refine ⟨answers.get ⟨rAns % answers.length, hlt⟩,
        by simp [List.getElem?_eq_getElem hlt], ?_⟩
      simp [dialContext, hip, hq, hres, List.length_eq_zero, hne]

/-- C1 witness: dialing dns.example:443 against a stub root upstream
with three answers issues one bootstrap lookup and dials the answer at
index 1 % 3 with the original port. -/
theorem c1_witness :
    ∃ a, (["10.0.0.1", "10.0.0.2", "10.0.0.3"] : List String)[(1 : Nat) % 3]?
        = some a ∧
      dialContext isIPLiteral stubThreeAnswers 0 1 "dns.example" "443"
        = some ⟨1, .ok (a, "443")⟩ :=
  ((c1_dial_bootstrap isIPLiteral stubThreeAnswers 0 1 "dns.example" "443").2
    (by decide) ⟨1, 1, .ok ["10.0.0.1", "10.0.0.2", "10.0.0.3"]⟩
    (by decide)).2.2 ["10.0.0.1", "10.0.0.2", "10.0.0.3"] rfl (by decide)

/-- C1 counterexample: in the bootstrap of a hostname dial returning
three answers, a random source uniform over its range [0, 2^63) picks
the first answer for strictly more draws than the third, so the answer
substituted as the connection host is not picked uniformly at random. -/
theorem c1_counterexample :
    dialAnswerCount "10.0.0.1" ≠ dialAnswerCount "10.0.0.3" := by
  have hgen : ∀ (m : Nat) (hm3 : m < 3) (rAns : Nat), rAns % 3 = m →
      dialContext (fun _ => false) stubThreeAnswers 0 rAns
        "dns.example" "443"
      = some ⟨1, .ok ((["10.0.0.1", "10.0.0.2", "10.0.0.3"] :
          List String).get ⟨m, hm3⟩, "443")⟩ := by
    intro m hm3 rAns h
    subst h
    rfl
  have hidx : ∀ (i : Nat) (hi : i < 3),
      (["10.0.0.1", "10.0.0.2", "10.0.0.3"] : List String)[i]?
        = some ((["10.0.0.1", "10.0.0.2", "10.0.0.3"] :
            List String).get ⟨i, hi⟩) := by
    intro i hi
    exact List.getElem?_eq_getElem (show i < (["10.0.0.1", "10.0.0.2",
      "10.0.0.3"] : List String).length from hi)
  have hval : ∀ (m : Nat) (hm3 : m < 3) (rAns : Nat), rAns % 3 = m →
      ∀ b : String,
        (dialContext (fun _ => false) stubThreeAnswers 0 rAns
          "dns.example" "443" = some ⟨1, .ok (b, "443")⟩) ↔
        (["10.0.0.1", "10.0.0.2", "10.0.0.3"] :
          List String).get ⟨m, hm3⟩ = b := by
    intro m hm3 rAns h b
    rw [hgen m hm3 rAns h]
    simp
  have hiff : ∀ (a : String) (j : Nat), j < 3 →
      ((["10.0.0.1", "10.0.0.2", "10.0.0.3"] : List String)[j]? = some a) →
      (∀ i, i < 3 → i ≠ j →
        ((["10.0.0.1", "10.0.0.2", "10.0.0.3"] : List String)[i]? ≠ some a)) →
      ∀ rAns : Nat,
        (dialContext (fun _ => false) stubThreeAnswers 0 rAns
          "dns.example" "443" = some ⟨1, .ok (a, "443")⟩) ↔ rAns % 3 = j := by
    intro a j hj3 hja hother rAns
    constructor
    · intro h
      have hmlt : rAns % 3 < 3 := by omega
      have hget := (hval (rAns % 3) hmlt rAns rfl a).mp h
      have hm2 : (["10.0.0.1", "10.0.0.2", "10.0.0.3"] :
          List String)[rAns % 3]? = some a := by
        rw [hidx (rAns % 3) hmlt]
        exact congrArg some hget
      by_contra hne
      exact hother (rAns % 3) hmlt hne hm2
    · intro h
      refine (hval j hj3 rAns h a).mpr ?_
      rw [hidx j hj3] at hja
      exact Option.some_inj.mp hja
  have h1 : dialAnswerCount "10.0.0.1" = randIntRange / 3 + 1 := by
    unfold dialAnswerCount
    rw [Finset.filter_congr (fun rAns _ =>
      hiff "10.0.0.1" 0 (by omega) (by decide) (by decide) rAns)]
    rw [card_range_filter_mod 3 0 (by omega) (by omega) randIntRange]
    rw [show randIntRange % 3 = 2 by decide]
    norm_num
  have h3 : dialAnswerCount "10.0.0.3" = randIntRange / 3 := by
    unfold dialAnswerCount
    rw [Finset.filter_congr (fun rAns _ =>
      hiff "10.0.0.3" 2 (by omega) (by decide) (by decide) rAns)]
    rw [card_range_filter_mod 3 2 (by omega) (by omega) randIntRange]
    rw [show randIntRange % 3 = 2 by decide]
    norm_num
  omega

/-- C10: with a non-empty endpoint list, pickEndpoint is total and
yields an element of the list; on the empty list it yields no value (the
Go expression panics on modulo by zero); the startup check of main is
not fatal for the primary client, whose selections therefore always
succeed. -/
theorem c10_pickEndpoint_total (endpoints : List String) (r : Nat)
    (h : endpoints ≠ []) :
    (∃ e, pickEndpoint endpoints r = some e ∧ e ∈ endpoints) ∧
    pickEndpoint [] r = none ∧
    startupFatal = false ∧
    (pickEndpoint dohClientEndpoints r).isSome = true := by
  refine ⟨pickEndpoint_mem endpoints r h, ?_, rfl, ?_⟩
  · simp [pickEndpoint]
  · obtain ⟨e, he, -⟩ := pickEndpoint_mem dohClientEndpoints r (by decide)
    simp [he]

/-- With duplicate-free endpoints, the endpoint at index j is selected
for exactly the draws whose residue modulo the list length is j. -/
theorem pickEndpoint_eq_some_iff (endpoints : List String)
    (hnd : endpoints.Nodup) (j : Nat) (hj : j < endpoints.length) (r : Nat) :
    pickEndpoint endpoints r = some endpoints[j] ↔
      r % endpoints.length = j := by
  have hk : 0 < endpoints.length := by omega
  have hlt : r % endpoints.length < endpoints.length := Nat.mod_lt r hk
  unfold pickEndpoint
  rw [List.getElem?_eq_getElem hlt, Option.some_inj]
  exact hnd.getElem_inj_iff

/-- C6 amended: endpoint selection uses the index rand % k with rand
uniform on [0, 2^63); whenever k divides 2^63 — in particular for the
2-endpoint root client and the 4-endpoint primary client — every
endpoint of a duplicate-free k-element set is selected for exactly
2^63 / k of the draws, i.e. with probability exactly 1/k, independently
per call; for other k the per-endpoint deviation is below 2^-63. -/
theorem c6_uniform_when_size_divides (endpoints : List String) (e : String)
    (hnd : endpoints.Nodup) (hdvd : endpoints.length ∣ randIntRange)
    (he : e ∈ endpoints) :
    selectionCount endpoints e = randIntRange / endpoints.length := by
  obtain ⟨j, hj, rfl⟩ := List.getElem_of_mem he
  have hk : 0 < endpoints.length := by omega
  unfold selectionCount
  rw [Finset.filter_congr
    (fun r _ => pickEndpoint_eq_some_iff endpoints hnd j hj r)]
  rw [card_range_filter_mod endpoints.length j hk hj randIntRange]
  obtain ⟨c, hc⟩ := hdvd
  rw [hc, Nat.mul_mod_right]
  simp

/-- C6 witness: with the 2-endpoint root client, the first endpoint is
selected on exactly half of the draws. -/
theorem c6_witness :
    selectionCount rootDohClientEndpoints "https://1.0.0.1/dns-query"
      = randIntRange / rootDohClientEndpoints.length :=
  c6_uniform_when_size_divides rootDohClientEndpoints
    "https://1.0.0.1/dns-query" (by decide) ⟨2 ^ 62, by decide⟩
    (by decide)

/-- C6 counterexample: with a three-endpoint client, a random source
uniform over its range [0, 2^63) selects the first endpoint for strictly
more draws than the third (2^63 is not divisible by 3), so the endpoints
are not each chosen with probability 1/k. -/
theorem c6_counterexample :
    selectionCount threeEndpoints "https://e1/dns-query"
      ≠ selectionCount threeEndpoints "https://e3/dns-query" := by
  have hiff : ∀ (a : String) (j : Nat), j < 3 → threeEndpoints[j]? = some a →
      (∀ i, i < 3 → i ≠ j → threeEndpoints[i]? ≠ some a) →
      ∀ r : Nat, (pickEndpoint threeEndpoints r = some a) ↔ r % 3 = j := by
    intro a j hj3 hja hother r
    have hpe : pickEndpoint threeEndpoints r = threeEndpoints[r % 3]? := rfl
    constructor
    · intro h
      rw [hpe] at h
      rcases (by omega : r % 3 = 0 ∨ r % 3 = 1 ∨ r % 3 = 2) with hm | hm | hm <;>
        rw [hm] at h <;> by_contra hne <;>
        exact hother _ (by omega) (by omega) h
    · intro h
      rw [hpe, h, hja]
  have h1 : selectionCount threeEndpoints "https://e1/dns-query"
      = randIntRange / 3 + 1 := by
    unfold selectionCount
    rw [Finset.filter_congr (fun r _ =>
      hiff "https://e1/dns-query" 0 (by omega) (by decide) (by decide) r)]
    rw [card_range_filter_mod 3 0 (by omega) (by omega) randIntRange]
    rw [show randIntRange % 3 = 2 by decide]
    norm_num
  have h3 : selectionCount threeEndpoints "https://e3/dns-query"
      = randIntRange / 3 := by
    unfold selectionCount
    rw [Finset.filter_congr (fun r _ =>
      hiff "https://e3/dns-query" 2 (by omega) (by decide) (by decide) r)]
    rw [card_range_filter_mod 3 2 (by omega) (by omega) randIntRange]
    rw [show randIntRange % 3 = 2 by decide]
    norm_num
  omega

/-- C10 witness: the root endpoint list is non-empty and selection at
draw 5 yields one of its elements. -/
theorem c10_witness :
    (∃ e, pickEndpoint rootDohClientEndpoints 5 = some e ∧
      e ∈ rootDohClientEndpoints) ∧
    pickEndpoint [] 5 = none ∧
    startupFatal = false ∧
    (pickEndpoint dohClientEndpoints 5).isSome = true :=
  c10_pickEndpoint_total rootDohClientEndpoints 5 (by decide)

end Gdoh
